import Mathlib

/-!
Shallow embedding of the playback/session core of `danktunes.py` (a terminal
music player).  Pure state-transforming Lean functions mirror the Python
functions; OS-level effects (path resolution, file existence, decoder binary
lookup, process spawning and signalling, wall-clock time, `random.shuffle`,
`os.path.getmtime`) are passed in explicitly through an `Env` record or as
function arguments, so every definition is executable and decidable on
concrete inputs.  Python floats are modelled as rationals, Python ints as
`Int`/`Nat`, Python (insertion-ordered) dicts as association lists ordered
oldest-first.
-/

namespace Danktunes

/-- Constant `SEEK_COOLDOWN = 0.3` from danktunes.py. -/
def SEEK_COOLDOWN : ℚ := 3 / 10

/-- Constant `MAX_TRACK_DURATIONS = 5000` from danktunes.py. -/
def MAX_TRACK_DURATIONS : ℕ := 5000

/-- Constant `CACHE_TRIM_SIZE = 1000` from danktunes.py. -/
def CACHE_TRIM_SIZE : ℕ := 1000

/-- Constant `SPEED_MIN = 0.5` from danktunes.py. -/
def SPEED_MIN : ℚ := 1 / 2

/-- Constant `SPEED_MAX = 2.0` from danktunes.py. -/
def SPEED_MAX : ℚ := 2

/-- Python `int()` truncation toward zero, on rationals. -/
def pyInt (q : ℚ) : ℤ := if 0 ≤ q then ⌊q⌋ else -⌊-q⌋

/-- Round-half-to-even to an integer, modelling Python `round(x)`. -/
def pyRoundHalfEven (q : ℚ) : ℤ :=
  let f := ⌊q⌋
  let r := q - (f : ℚ)
  if r < 1 / 2 then f
  else if 1 / 2 < r then f + 1
  else if f % 2 = 0 then f else f + 1

/-- Python `round(x, n)` for rationals (round-half-to-even at `n` digits). -/
def pyRound (n : ℕ) (q : ℚ) : ℚ :=
  (pyRoundHalfEven (q * (10 : ℚ) ^ n) : ℚ) / (10 : ℚ) ^ n

/-- Split a character list at every occurrence of a separator character
(the pieces do not contain the separator; `n+1` pieces for `n`
separators), modelling Python `str.split(sep)` for one-character
separators. -/
def splitOnChar (sep : Char) : List Char → List (List Char)
  | [] => [[]]
  | c :: cs =>
    let rest := splitOnChar sep cs
    if c = sep then [] :: rest
    else
      match rest with
      | [] => [[c]]
      | piece :: pieces => (c :: piece) :: pieces

/-- Lowercase one ASCII character, modelling Python `str.lower` on the
character range the source compares (file extensions). -/
def charLower (c : Char) : Char :=
  if 'A' ≤ c ∧ c ≤ 'Z' then Char.ofNat (c.toNat + 32) else c

/-- Lowercase a string character by character. -/
def strToLower (s : String) : String := String.mk (s.data.map charLower)

/-- `s` starts with `pre` (Python `str.startswith`). -/
def strStartsWith (s pre : String) : Bool := pre.data.isPrefixOf s.data

/-- Code-point lexicographic strict order on character lists, the order
Python uses to compare strings. -/
def charListLt : List Char → List Char → Bool
  | [], [] => false
  | [], _ :: _ => true
  | _ :: _, [] => false
  | a :: as, b :: bs =>
    if a.toNat < b.toNat then true
    else if b.toNat < a.toNat then false
    else charListLt as bs

/-- Python's `<` on strings. -/
def strLt (a b : String) : Bool := charListLt a.data b.data

/-- Final path component, modelling `Path(p).name` / `os.path.basename`. -/
def basename (p : String) : String :=
  String.mk ((splitOnChar '/' p.data).getLastD p.data)

/-- Extension of the final path component, modelling `Path(p).suffix`
(empty for dotless names and for purely-hidden names like `.bashrc`). -/
def pathSuffix (p : String) : String :=
  let parts := splitOnChar '.' (basename p).data
  match parts with
  | [] => ""
  | [_] => ""
  | first :: rest =>
    if first = [] ∧ rest.length = 1 then ""
    else
      match rest.getLast? with
      | some last => if last = [] then "" else String.mk ('.' :: last)
      | none => ""

/-- Python dict assignment `d[k] = v` on an insertion-ordered association
list: updates in place if the key is present (keeping its position),
otherwise appends at the end (newest last). -/
def dictInsert {α β : Type} [BEq α] (d : List (α × β)) (k : α) (v : β) :
    List (α × β) :=
  if d.any (fun e => e.1 == k) then
    d.map (fun e => if e.1 == k then (k, v) else e)
  else d ++ [(k, v)]

/-- Python dict lookup `d.get(k)`. -/
def dictGet? {α β : Type} [BEq α] (d : List (α × β)) (k : α) : Option β :=
  (d.find? (fun e => e.1 == k)).map (fun e => e.2)

/-- One pass of the cache-trim loop body in `scan_all_durations`:
`if state.track_durations: del state.track_durations[next(iter(...))]`,
i.e. delete the oldest entry if any. -/
def cacheTrimStep {α β : Type} (d : List (α × β)) : List (α × β) :=
  if d.isEmpty then d else d.tail

/-- The trim loop `for _ in range(CACHE_TRIM_SIZE): ...` of
`scan_all_durations`: drops a batch of the `CACHE_TRIM_SIZE` oldest entries. -/
def cacheTrim {α β : Type} (d : List (α × β)) : List (α × β) :=
  cacheTrimStep^[CACHE_TRIM_SIZE] d

/-- The duration-cache insertion as performed inside `scan_all_durations`
(both the parallel and the sequential branch use this exact pattern):
`if len(cache) >= MAX_TRACK_DURATIONS: trim batch; cache[k] = v`. -/
def scanCacheInsert {α β : Type} [BEq α] (d : List (α × β)) (k : α) (v : β) :
    List (α × β) :=
  let d := if MAX_TRACK_DURATIONS ≤ d.length then cacheTrim d else d
  dictInsert d k v

/-- The duration-cache insertion site inside `play` (danktunes.py
lines 1577-1581): `if path not in cache: dur = get_duration(path);
if dur: cache[path] = dur` — note: no eviction of any kind here, and a
falsy (zero / None) duration is not inserted. -/
def playCacheInsert {α : Type} [BEq α] (d : List (α × ℚ)) (k : α)
    (dur : Option ℚ) : List (α × ℚ) :=
  if (dictGet? d k).isSome then d
  else
    match dur with
    | some v => if v = 0 then d else dictInsert d k v
    | none => d

/-- `_rebuild_playlist_map`: `{path: idx for idx, path in enumerate(playlist)}`
(on duplicate paths the later index wins, as in a Python dict comprehension). -/
def buildIndexMap (l : List String) : List (String × ℕ) :=
  l.enum.foldl (fun m e => dictInsert m e.2 e.1) []

/-- An external decoder process handle: its pid and whether `poll()` would
report it as still running. -/
structure Proc where
  pid : ℕ
  alive : Bool
deriving DecidableEq

/-- The decoder command line assembled by `play`: either
`[aplay, path]` for `.wav` files, or an `mpg123` invocation with
optional `--vol`, `--skip` and `--pitch` arguments (this constructor
records the numeric values of exactly the optional flags the source
conditionally appends). -/
inductive Cmd where
  | aplay (bin : String) (path : String)
  | mpg123 (bin : String) (vol : Option ℤ) (skip : Option ℤ)
      (pitch : Option ℚ) (path : String)
deriving DecidableEq

/-- Which control path `stop_audio`'s try-block took: no live process,
graceful SIGTERM success, process-lookup/permission error, SIGTERM timeout
followed by successful SIGKILL, SIGKILL also failing, or an unexpected
exception.  The try-block only signals the OS process and logs; it mutates
no Python state field on any of these paths. -/
inductive StopOutcome where
  | noneAlive
  | graceful
  | lookupFailed
  | timeoutKilled
  | timeoutKillFailed
  | unexpectedError
deriving DecidableEq

/-- The fields of the global `PlayerState` dataclass of danktunes.py that
the playback/playlist/cache core reads or writes, with the dataclass's
default values.  `flat_items` is reduced to (path, is_dir) pairs.
`track_durations` (an insertion-ordered dict) is an association list with
the oldest entry first. -/
structure PlayerState where
  currentFile : Option String := none
  currentPath : Option String := none
  currentPosition : ℚ := 0
  effectSpeed : ℚ := 1
  volume : ℤ := 100
  currentArtist : Option String := none
  currentTitle : Option String := none
  process : Option Proc := none
  playbackStartTime : Option ℚ := none
  currentPlayer : Option String := none
  cursor : ℕ := 0
  flatItems : List (String × Bool) := []
  playlist : List String := []
  playlistIndex : ℕ := 0
  playlistIndexMap : List (String × ℕ) := []
  playlistScrollOffset : ℕ := 0
  shuffleMode : Bool := false
  repeatMode : String := "off"
  lastSeekTime : ℚ := 0
  paused : Bool := false
  trackDurations : List (String × ℚ) := []
  sortBy : String := "name"
  sortReverse : Bool := false
deriving DecidableEq

/-- The fresh player state at startup. -/
def initState : PlayerState := {}

/-- `state.process and state.process.poll() is None`. -/
def procAlive (s : PlayerState) : Bool :=
  match s.process with
  | some p => p.alive
  | none => false

/-- The OS-dependent inputs of one playback operation: the wall clock,
the result of `Path(path).resolve()` (`none` models the call raising),
the resolved library root `state.music_dir.resolve()`, file existence,
`_find_command` results, the pid a successful `Popen` would return,
whether `Popen` succeeds, the text of the exception when it does not,
the `get_duration` / `get_metadata` results, whether the `os.killpg`
signal calls succeed, and which path `stop_audio`'s try-block takes. -/
structure Env where
  now : ℚ
  resolved : Option String
  musicDirResolved : String
  pathExists : Bool
  aplayCmd : Option String
  mpg123Cmd : Option String
  freshPid : ℕ
  spawnOk : Bool
  errText : String
  duration : Option ℚ
  artist : Option String
  title : Option String
  signalOk : Bool
  killOk : Bool
  stopOutcome : StopOutcome
deriving DecidableEq

/-- The try-block of `stop_audio`: it signals the owned process (or does
nothing when none is alive) but mutates no Python state field on any
control path, including every exception path. -/
def stopAudioTry (o : StopOutcome) (s : PlayerState) : PlayerState :=
  match o with
  | .noneAlive => s
  | .graceful => s
  | .lookupFailed => s
  | .timeoutKilled => s
  | .timeoutKillFailed => s
  | .unexpectedError => s

/-- `stop_audio`: try-block (shown above), then the `finally` block, which
always clears every playback field. -/
def stopAudio (o : StopOutcome) (s : PlayerState) : PlayerState :=
  let s1 := stopAudioTry o s
  { s1 with
    process := none
    currentFile := none
    currentPath := none
    playbackStartTime := none
    currentPosition := 0
    currentArtist := none
    currentTitle := none
    currentPlayer := none
    paused := false }

/-- The result of one `play` call: its boolean return value, the state it
leaves behind, and the decoder command it spawned, if any. -/
structure PlayResult where
  ok : Bool
  st : PlayerState
  spawned : Option Cmd
deriving DecidableEq

/-- The `mpg123` command line built by `play` for non-`.wav` files:
base flags plus `--vol int(volume*2.55)` when volume ≠ 100, plus
`--skip max(1, int(start_pos*44100/1152))` when start_pos > 0, plus
`--pitch round(clamp(speed-1, -0.9, 3.0), 2)` when speed ≠ 1.0. -/
def buildMpgCmd (bin : String) (volume : ℤ) (startPos : ℤ) (speed : ℚ)
    (path : String) : Cmd :=
  Cmd.mpg123 bin
    (if volume ≠ 100 then some (pyInt ((volume : ℚ) * (255 / 100))) else none)
    (if 0 < startPos then
        some (max 1 (pyInt ((startPos : ℚ) * ((44100 : ℚ) / 1152))))
      else none)
    (if speed ≠ 1 then
        some (pyRound 2 (max (-(9 : ℚ) / 10) (min 3 (speed - 1))))
      else none)
    path

/-- The tail of `play` after a successful `Popen`: records process and
player, then file/path/position/start-time, inserts into the duration
cache (the no-eviction `play` site), syncs the playlist index when the
path is in the playlist map, and stores metadata. -/
def afterSpawn (env : Env) (rp : String) (startPos : ℤ) (player : String)
    (cmd : Cmd) (s : PlayerState) : PlayResult :=
  let s := { s with
    process := some ⟨env.freshPid, true⟩
    currentPlayer := some player
    currentFile := some (basename rp)
    currentPath := some rp
    currentPosition := (startPos : ℚ)
    playbackStartTime := some env.now }
  let s := { s with trackDurations := playCacheInsert s.trackDurations rp env.duration }
  let s := { s with playlistIndex := (dictGet? s.playlistIndexMap rp).getD s.playlistIndex }
  let s := { s with currentArtist := env.artist, currentTitle := env.title }
  ⟨true, s, some cmd⟩

/-- `play(path, start_pos)` (danktunes.py lines 1483-1605): input
validation, resolution, the string-prefix library-root check, the
same-track-at-offset-zero idempotence check, `stop_audio`, existence
check, then the `.wav`/`aplay` or default/`mpg123` spawn branch. -/
def play (env : Env) (path : String) (startPos : ℤ) (s : PlayerState) :
    PlayResult :=
  if path = "" then
    ⟨false, { s with currentFile := some "Error: Invalid path" }, none⟩
  else
    match env.resolved with
    | none => ⟨false, { s with currentFile := some "Error: Invalid path" }, none⟩
    | some rp =>
      if ¬ strStartsWith rp env.musicDirResolved then
        ⟨false, { s with currentFile := some "Error: Path outside music directory" }, none⟩
      else if procAlive s ∧ s.currentPath = some rp ∧ startPos = 0 then
        ⟨true, s, none⟩
      else
        let s := stopAudio env.stopOutcome s
        if ¬ env.pathExists then
          ⟨false, { s with currentFile := some "Error: File not found" }, none⟩
        else if strToLower (pathSuffix rp) = ".wav" then
          match env.aplayCmd with
          | some bin =>
            if env.spawnOk then
              afterSpawn env rp startPos "aplay" (Cmd.aplay bin rp) s
            else ⟨false, { s with currentFile := some ("Error: " ++ env.errText) }, none⟩
          | none => ⟨false, { s with currentFile := some "Error: aplay not found" }, none⟩
        else
          match env.mpg123Cmd with
          | none => ⟨false, { s with currentFile := some "Error: mpg123 not found" }, none⟩
          | some bin =>
            if env.spawnOk then
              afterSpawn env rp startPos "mpg123"
                (buildMpgCmd bin s.volume startPos s.effectSpeed rp) s
            else ⟨false, { s with currentFile := some ("Error: " ++ env.errText) }, none⟩

/-- `toggle_pause` (danktunes.py lines 1647-1703).  With a live process:
mpg123 gets SIGSTOP/SIGCONT (note: `current_position` and
`playback_start_time` are not touched); aplay is stopped with the elapsed
time saved into `current_position`, and resumed via `play` from
`int(current_position)` (only when that is > 0).  With no live process:
resume from the saved position if paused, else play the cursor-selected
file. -/
def togglePause (env : Env) (s : PlayerState) : PlayerState × Option Cmd :=
  if procAlive s then
    if s.currentPlayer = some "mpg123" then
      if env.signalOk then
        if s.paused then ({ s with paused := false }, none)
        else ({ s with paused := true }, none)
      else (s, none)
    else if s.currentPlayer = some "aplay" then
      if s.paused then
        match s.currentPath with
        | some p =>
          if 0 < s.currentPosition then
            let r := play env p (pyInt s.currentPosition) s
            ({ r.st with paused := false }, r.spawned)
          else (s, none)
        | none => (s, none)
      else
        let elapsed := env.now - s.playbackStartTime.getD env.now + s.currentPosition
        ({ s with currentPosition := elapsed, paused := true, process := none }, none)
    else (s, none)
  else
    if s.paused then
      match s.currentPath with
      | some p =>
        if 0 < s.currentPosition then
          let r := play env p (pyInt s.currentPosition) s
          ({ r.st with paused := false }, r.spawned)
        else (s, none)
      | none => (s, none)
    else
      match s.flatItems.get? s.cursor with
      | some item =>
        if item.2 then (s, none)
        else
          let r := play env item.1 0 s
          (r.st, r.spawned)
      | none => (s, none)

/-- Python truthiness of `state.playback_start_time` (a float or None):
false for `None` and for `0.0`. -/
def pstTruthy (s : PlayerState) : Bool :=
  match s.playbackStartTime with
  | some t => decide (t ≠ 0)
  | none => false

/-- The elapsed-position computation of `_draw_ranger_progress`
(danktunes.py lines 2603-2615): shown only while a process is alive and
`playback_start_time` is truthy; while paused it reads
`state.current_position`, otherwise `now - playback_start_time +
current_position`. -/
def computedElapsed (now : ℚ) (s : PlayerState) : Option ℚ :=
  if procAlive s ∧ pstTruthy s then
    some (if s.paused then s.currentPosition
          else now - s.playbackStartTime.getD 0 + s.currentPosition)
  else none

/-- Mark the owned process as no longer running (the effect of a
successful `os.killpg(..., SIGTERM)` + `wait`). -/
def killProc (s : PlayerState) : PlayerState :=
  match s.process with
  | some p => { s with process := some ⟨p.pid, false⟩ }
  | none => s

/-- `_restart_playback` (danktunes.py lines 2167-2180): with a live
process and a current path, replay from `int(current_position + (now -
playback_start_time if truthy else 0))`; otherwise play the
cursor-selected non-directory item from zero. -/
def restartPlayback (env : Env) (s : PlayerState) : PlayerState × Option Cmd :=
  if procAlive s ∧ s.currentPath.isSome then
    let elapsed :=
      match s.playbackStartTime with
      | some t => if t = 0 then 0 else env.now - t
      | none => 0
    let pos := s.currentPosition + elapsed
    let r := play env (s.currentPath.getD "") (pyInt pos) s
    (r.st, r.spawned)
  else
    match s.flatItems.get? s.cursor with
    | some item =>
      if item.2 then (s, none)
      else
        let r := play env item.1 0 s
        (r.st, r.spawned)
    | none => (s, none)

/-- `adjust_speed(delta)`: clamp `round(speed + delta, 1)` into
`[SPEED_MIN, SPEED_MAX]`, store it, then `_restart_playback()`. -/
def adjustSpeed (env : Env) (delta : ℚ) (s : PlayerState) :
    PlayerState × Option Cmd :=
  let newSpeed := max SPEED_MIN (min SPEED_MAX (pyRound 1 (s.effectSpeed + delta)))
  restartPlayback env { s with effectSpeed := newSpeed }

/-- `adjust_volume(delta)` (danktunes.py lines 1860-1884): clamp the
volume to [0,100]; if an mpg123 process is live, kill it and replay the
current path from `int(state.current_position)` — the stored offset, not
the current elapsed position. -/
def adjustVolume (env : Env) (delta : ℤ) (s : PlayerState) :
    PlayerState × Option Cmd :=
  let s := { s with volume := max 0 (min 100 (s.volume + delta)) }
  if procAlive s ∧ s.currentPlayer = some "mpg123" then
    let s := if env.killOk then killProc s else s
    match s.currentPath with
    | some p =>
      let r := play env p (pyInt s.currentPosition) s
      (r.st, r.spawned)
    | none => (s, none)
  else (s, none)

/-- `go_to_next_track` (danktunes.py lines 1887-1911). -/
def goToNextTrack (s : PlayerState) : Bool × PlayerState :=
  if s.playlist.isEmpty then (false, s)
  else if s.repeatMode = "one" then (true, s)
  else if s.playlistIndex + 1 < s.playlist.length then
    (true, { s with playlistIndex := s.playlistIndex + 1 })
  else if s.repeatMode = "all" then
    (true, { s with playlistIndex := 0, playlistScrollOffset := 0 })
  else (false, s)

/-- The playlist-advance contract as the claim states it
(result, new index); written from the claim's words, to be compared with
`goToNextTrack` as translated from the source. -/
def advanceSpecClaim (s : PlayerState) : Bool × ℕ :=
  if s.repeatMode = "one" then (true, s.playlistIndex)
  else if s.playlistIndex + 1 < s.playlist.length then
    (true, s.playlistIndex + 1)
  else if s.repeatMode = "all" then (true, 0)
  else (false, s.playlistIndex)

/-- `remove_from_playlist(index)` (danktunes.py lines 1730-1742): bounds
check, pop, map pop + full rebuild, and reset the playlist index to 0
only when it is now out of range. -/
def removeFromPlaylist (index : ℤ) (s : PlayerState) : PlayerState :=
  if 0 ≤ index ∧ index < (s.playlist.length : ℤ) then
    let newList := s.playlist.eraseIdx index.toNat
    let s := { s with playlist := newList, playlistIndexMap := buildIndexMap newList }
    if s.playlist.length ≤ s.playlistIndex then
      { s with playlistIndex := 0, playlistScrollOffset := 0 }
    else s
  else s

/-- `toggle_shuffle_mode` (danktunes.py lines 1753-1769).  The result of
`random.shuffle` is passed in as `shuffled`.  Note the source looks the
current track up in the OLD `playlist_index_map` and only rebuilds the
map afterwards. -/
def toggleShuffleMode (shuffled : List String) (s : PlayerState) : PlayerState :=
  let s := { s with shuffleMode := ! s.shuffleMode }
  if s.shuffleMode ∧ ¬ s.playlist.isEmpty then
    let current : Option String :=
      if s.playlistIndex < s.playlist.length then s.playlist.get? s.playlistIndex
      else none
    let s := { s with playlist := shuffled }
    let s :=
      match current with
      | some c =>
        if c ≠ "" ∧ (dictGet? s.playlistIndexMap c).isSome then
          { s with playlistIndex := (dictGet? s.playlistIndexMap c).getD 0 }
        else { s with playlistIndex := 0, playlistScrollOffset := 0 }
      | none => { s with playlistIndex := 0, playlistScrollOffset := 0 }
    { s with playlistIndexMap := buildIndexMap s.playlist }
  else s

/-- Stable insertion into an already-sorted list, taking a strict
comparison; used to model Python's stable `list.sort`. -/
def stableInsert {α : Type} (lt : α → α → Bool) (x : α) : List α → List α
  | [] => [x]
  | y :: ys => if lt y x then y :: stableInsert lt x ys else x :: y :: ys

/-- Stable sort by a strict comparison (extensionally equal to Python's
stable `list.sort` on the same strict key order). -/
def stableSort {α : Type} (lt : α → α → Bool) : List α → List α
  | [] => []
  | x :: xs => stableInsert lt x (stableSort lt xs)

/-- Strict string comparison honoring `sort_reverse`. -/
def strCmp (rev : Bool) (a b : String) : Bool :=
  if rev then strLt b a else strLt a b

/-- Strict rational comparison honoring `sort_reverse`. -/
def ratCmp (rev : Bool) (a b : ℚ) : Bool :=
  if rev then decide (b < a) else decide (a < b)

/-- `sort_playlist` (danktunes.py lines 1788-1810): stable sort by
lowercased basename / cached duration (default 0) / mtime (default 0),
honoring `sort_reverse`; then the same stale-map index lookup as shuffle
(but with no else-branch), then the map rebuild.  `mtime` models
`os.path.getmtime` guarded by `os.path.exists`. -/
def sortPlaylist (mtime : String → Option ℚ) (s : PlayerState) : PlayerState :=
  if s.playlist.isEmpty then s
  else
    let currentTrack : Option String :=
      if s.playlistIndex < s.playlist.length then s.playlist.get? s.playlistIndex
      else none
    let sorted :=
      if s.sortBy = "name" then
        stableSort (fun a b =>
          strCmp s.sortReverse (strToLower (basename a)) (strToLower (basename b)))
          s.playlist
      else if s.sortBy = "duration" then
        stableSort (fun a b => ratCmp s.sortReverse
          ((dictGet? s.trackDurations a).getD 0) ((dictGet? s.trackDurations b).getD 0))
          s.playlist
      else if s.sortBy = "date" then
        stableSort (fun a b => ratCmp s.sortReverse
          ((mtime a).getD 0) ((mtime b).getD 0)) s.playlist
      else s.playlist
    let s := { s with playlist := sorted }
    let s :=
      match currentTrack with
      | some c =>
        if c ≠ "" ∧ (dictGet? s.playlistIndexMap c).isSome then
          { s with playlistIndex := (dictGet? s.playlistIndexMap c).getD 0 }
        else s
      | none => s
    { s with playlistIndexMap := buildIndexMap s.playlist }

/-- Containment of a resolved path below a library root, as the spec's
words state the security boundary ("a path inside the configured library
root"): either the root itself or a path in the root's subtree. -/
def insideLibraryRoot (root p : String) : Prop :=
  p = root ∨ (strStartsWith p (root ++ "/") = true)

instance (root p : String) : Decidable (insideLibraryRoot root p) := by
  unfold insideLibraryRoot; infer_instance

/-- An environment in which every OS interaction succeeds: the path
resolves to itself, the library root resolves to `/home/user/Music`, the
file exists, both decoders are installed, spawning succeeds, and the
duration probe reports 200 seconds. -/
def okEnv : Env :=
  { now := 100
    resolved := some "/home/user/Music/t.mp3"
    musicDirResolved := "/home/user/Music"
    pathExists := true
    aplayCmd := some "aplay"
    mpg123Cmd := some "mpg123"
    freshPid := 1
    spawnOk := true
    errText := ""
    duration := some 200
    artist := none
    title := none
    signalOk := true
    killOk := true
    stopOutcome := .graceful }

/-- The session state after `play("/home/user/Music/t.mp3", 0)` from the
fresh state at wall-clock time 100 (an mpg123-backed track playing from
offset 0). -/
def playedState : PlayerState := (play okEnv "/home/user/Music/t.mp3" 0 initState).st

/-- The same state written out field by field (used to bridge between
kernel evaluation and rational arithmetic in proofs). -/
def playedLit : PlayerState :=
  { currentFile := some "t.mp3"
    currentPath := some "/home/user/Music/t.mp3"
    currentPosition := 0
    process := some ⟨1, true⟩
    playbackStartTime := some 100
    currentPlayer := some "mpg123"
    trackDurations := [("/home/user/Music/t.mp3", 200)] }

/-- The playing session of `playedState` after `toggle_pause()` at
wall-clock time 130, i.e. after 30 seconds of playback. -/
def c1Paused : PlayerState := (togglePause { okEnv with now := 130 } playedState).1

/-- The paused session of `c1Paused` after a second `toggle_pause()` at
wall-clock time 140, i.e. after 10 further seconds spent paused. -/
def c1Resumed : PlayerState := (togglePause { okEnv with now := 140 } c1Paused).1

/-- A resolved path in a sibling directory whose name extends the library
root's name as a string: it lies outside the `/home/user/Music` subtree
but passes the source's `startswith` check. -/
def c3Sibling : String := "/home/user/Music2/evil.mp3"

/-- Environment for playing the sibling path (resolution returns it
unchanged; the file exists and mpg123 is installed). -/
def c3Env : Env := { okEnv with resolved := some c3Sibling }

/-- A session in which an mpg123 process is alive playing
`/home/user/Music/t.mp3` since wall-clock time 100 from stored offset 0. -/
def liveMpgState : PlayerState :=
  { currentPath := some "/home/user/Music/t.mp3"
    process := some ⟨7, true⟩
    currentPlayer := some "mpg123"
    playbackStartTime := some 100
    currentPosition := 0 }

/-- Playlist of three tracks with a consistent index map, current index 1
(track `aaa`), sorted by name ascending — the exact scenario of the
repository's own test `test_sort_playlist_preserves_current`. -/
def c7SortState : PlayerState :=
  { playlist := ["/music/zzz.mp3", "/music/aaa.mp3", "/music/mmm.mp3"]
    playlistIndex := 1
    playlistIndexMap :=
      [("/music/zzz.mp3", 0), ("/music/aaa.mp3", 1), ("/music/mmm.mp3", 2)] }

/-- Playlist of two tracks with a consistent index map, current index 0
(track `a`), shuffle off. -/
def c7ShufState : PlayerState :=
  { playlist := ["/music/a.mp3", "/music/b.mp3"]
    playlistIndex := 0
    playlistIndexMap := [("/music/a.mp3", 0), ("/music/b.mp3", 1)] }

/-- Playlist of three tracks with the current index 1 in the middle. -/
def c8State : PlayerState :=
  { playlist := ["/m/a.mp3", "/m/b.mp3", "/m/c.mp3"]
    playlistIndex := 1
    playlistIndexMap := [("/m/a.mp3", 0), ("/m/b.mp3", 1), ("/m/c.mp3", 2)] }

/-- Two-track playlist at the last index with repeat mode `all`. -/
def c6State : PlayerState :=
  { playlist := ["/m/a.mp3", "/m/b.mp3"]
    playlistIndex := 1
    repeatMode := "all" }

/-- `n` distinct duration-cache entries `(0,1), (1,1), ..., (n-1,1)` in
insertion order (track identities abstracted to numbers). -/
def natEntries (n : ℕ) : List (ℕ × ℚ) := (List.range n).map (fun i => (i, 1))

/-- Environment for playing a `.wav` file. -/
def wavEnv : Env := { okEnv with resolved := some "/home/user/Music/t.wav" }

/-- The try-block of `stop_audio` never mutates the Python state, whatever
path it takes. -/
theorem stopAudioTry_eq (o : StopOutcome) (s : PlayerState) : stopAudioTry o s = s := by
  cases o <;> rfl

/-- On nonnegative rationals, Python `int()` truncation is the floor. -/
theorem pyInt_eq_floor {q : ℚ} (h : 0 ≤ q) : pyInt q = ⌊q⌋ := if_pos h

/-- Truncation of a rational that is at least one is at least one. -/
theorem one_le_pyInt {q : ℚ} (h : 1 ≤ q) : 1 ≤ pyInt q := by
  rw [pyInt_eq_floor (le_trans zero_le_one h)]
  exact Int.le_floor.mpr (by exact_mod_cast h)

/-- Truncation of a nonnegative rational does not exceed it. -/
theorem pyInt_le {q : ℚ} (h : 0 ≤ q) : (pyInt q : ℚ) ≤ q := by
  rw [pyInt_eq_floor h]; exact_mod_cast Int.floor_le q

/-- Truncation of a nonnegative rational loses less than one. -/
theorem sub_one_lt_pyInt {q : ℚ} (h : 0 ≤ q) : q - 1 < (pyInt q : ℚ) := by
  rw [pyInt_eq_floor h]; exact_mod_cast Int.sub_one_lt_floor q

/-- Claim C1: pause freezes the elapsed position.  The code violates this
for the mpg123 (suspend-capable) player: `toggle_pause` sends SIGSTOP but
saves nothing, so after playing from offset 0 at time 100 and pausing at
time 130 (elapsed 30), the computed elapsed position of
`_draw_ranger_progress` reads 0 while paused (the stale start offset) and
40 after resuming at time 140 (the pause interval is counted) — never the
frozen 30 the claim requires. -/
theorem C1_pause_does_not_freeze_elapsed :
    computedElapsed 130 playedState = some 30 ∧
    c1Paused.paused = true ∧
    computedElapsed 140 c1Paused = some 0 ∧
    c1Resumed.paused = false ∧
    computedElapsed 140 c1Resumed = some 40 ∧
    (0 : ℚ) ≠ 30 ∧ (40 : ℚ) ≠ 30 := by
  have h1 : playedState = playedLit := by decide
  have h2 : c1Paused = { playedLit with paused := true } := by decide
  have h3 : c1Resumed = playedLit := by decide
  have e1 : computedElapsed 130 playedLit = some (130 - 100 + 0) := rfl
  have e3 : computedElapsed 140 playedLit = some (140 - 100 + 0) := rfl
  refine ⟨?_, by rw [h2], ?_, by rw [h3]; rfl, ?_, by norm_num, by norm_num⟩
  · rw [h1, e1]; norm_num
  · rw [h2]; rfl
  · rw [h3, e3]; norm_num

/-- Claim C2: after `stop_audio` returns, whichever termination or
exception path was taken, the session has no process, no track, zero
position, no start time, and is not paused. -/
theorem C2_stop_always_clears (o : StopOutcome) (s : PlayerState) :
    (stopAudio o s).process = none ∧ (stopAudio o s).currentPath = none ∧
    (stopAudio o s).currentFile = none ∧ (stopAudio o s).currentPosition = 0 ∧
    (stopAudio o s).playbackStartTime = none ∧ (stopAudio o s).paused = false := by
  simp [stopAudio, stopAudioTry_eq]

/-- Claim C6: `go_to_next_track` on a non-empty playlist with a valid
index behaves exactly as the claim's advance contract: repeat `one` stays
and returns true; otherwise a non-final index increments and returns
true; a final index wraps to 0 under repeat `all` and returns true, and
returns false leaving the index unchanged under repeat `off`. -/
theorem C6_advance_matches_claim (s : PlayerState) (h1 : s.playlist ≠ [])
    (h2 : s.playlistIndex < s.playlist.length) :
    ((goToNextTrack s).1, (goToNextTrack s).2.playlistIndex) = advanceSpecClaim s := by
  have he : s.playlist.isEmpty = false := by simp [List.isEmpty_iff, h1]
  unfold goToNextTrack advanceSpecClaim
  rw [if_neg (by simp [he])]
  split_ifs <;> simp

/-- Witness for C6 at a concrete two-track playlist on its last index
with repeat mode `all`. -/
theorem C6_advance_witness :
    ((goToNextTrack c6State).1, (goToNextTrack c6State).2.playlistIndex) =
      advanceSpecClaim c6State :=
  C6_advance_matches_claim c6State (by decide) (by decide)

/-- Claim C7: shuffle and sort relocate the playlist index to the track
that was current before the reorder.  The code violates this: both
`toggle_shuffle_mode` and `sort_playlist` look the current track up in
the playlist map from BEFORE the reorder (the map is rebuilt only
afterwards), so the index keeps its old numeric value and now points at
whatever track landed there.  Sorting `[zzz, aaa, mmm]` by name with
current index 1 (`aaa`) leaves the index at 1, which now holds `mmm` —
the repository's own test `test_sort_playlist_preserves_current` expects
index 0.  Shuffling `[a, b]` at index 0 into `[b, a]` leaves the index at
0, which now holds `b`. -/
theorem C7_stale_map_breaks_current_track :
    c7SortState.playlist.get? c7SortState.playlistIndex = some "/music/aaa.mp3" ∧
    (sortPlaylist (fun _ => none) c7SortState).playlist =
      ["/music/aaa.mp3", "/music/mmm.mp3", "/music/zzz.mp3"] ∧
    (sortPlaylist (fun _ => none) c7SortState).playlistIndex = 1 ∧
    (sortPlaylist (fun _ => none) c7SortState).playlist.get?
        (sortPlaylist (fun _ => none) c7SortState).playlistIndex =
      some "/music/mmm.mp3" ∧
    c7ShufState.playlist.get? c7ShufState.playlistIndex = some "/music/a.mp3" ∧
    (toggleShuffleMode ["/music/b.mp3", "/music/a.mp3"] c7ShufState).shuffleMode = true ∧
    (toggleShuffleMode ["/music/b.mp3", "/music/a.mp3"] c7ShufState).playlist.get?
        (toggleShuffleMode ["/music/b.mp3", "/music/a.mp3"] c7ShufState).playlistIndex =
      some "/music/b.mp3" := by decide

/-- Counterexample to claim C8 as stated: removing the element at the
current index 1 of a three-track playlist leaves the index at 1 (now
pointing at the following track), it is not reset to 0. -/
theorem C8_remove_middle_keeps_index :
    c8State.playlistIndex = 1 ∧
    (removeFromPlaylist 1 c8State).playlist = ["/m/a.mp3", "/m/c.mp3"] ∧
    (removeFromPlaylist 1 c8State).playlistIndex = 1 ∧ (1 : ℕ) ≠ 0 := by decide

/-- Claim C8 amended: removing the element at the current index resets
the index to 0 exactly when the current index was the last position
(i.e. the index would otherwise fall out of range); otherwise the index
is left unchanged. -/
theorem C8_remove_resets_only_out_of_range (s : PlayerState) (i : ℕ)
    (h1 : i = s.playlistIndex) (h2 : i < s.playlist.length) :
    (removeFromPlaylist (i : ℤ) s).playlistIndex =
      if i + 1 = s.playlist.length then 0 else i := by
  have hc : (0 : ℤ) ≤ (i : ℤ) ∧ (i : ℤ) < (s.playlist.length : ℤ) :=
    ⟨Int.ofNat_nonneg i, by exact_mod_cast h2⟩
  have hlen : (s.playlist.eraseIdx ((i : ℤ)).toNat).length = s.playlist.length - 1 := by
    rw [Int.toNat_ofNat, List.length_eraseIdx]
    simp [h2]
  simp only [removeFromPlaylist, if_pos hc]
  by_cases hlast : i + 1 = s.playlist.length
  · have hcond : (s.playlist.eraseIdx ((i : ℤ)).toNat).length ≤ s.playlistIndex := by
      rw [hlen]; omega
    simp only [if_pos hcond, if_pos hlast]
  · have hcond : ¬ (s.playlist.eraseIdx ((i : ℤ)).toNat).length ≤ s.playlistIndex := by
      rw [hlen]; omega
    simp only [if_neg hcond, if_neg hlast]
    exact h1.symm

/-- Witness for the amended C8: removing the middle element (index 1 of
3) leaves the index at 1, matching the characterization. -/
theorem C8_remove_witness :
    (removeFromPlaylist ((1 : ℕ) : ℤ) c8State).playlistIndex =
      if 1 + 1 = c8State.playlist.length then 0 else 1 :=
  C8_remove_resets_only_out_of_range c8State 1 (by decide) (by decide)

/-- Counterexample to claim C3 as stated: the resolved path
`/home/user/Music2/evil.mp3` is outside the library root
`/home/user/Music`, yet `play` accepts it (the source checks only that
the resolved path string starts with the resolved root string) and
spawns a decoder for it. -/
theorem C3_sibling_path_not_rejected :
    ¬ insideLibraryRoot "/home/user/Music" c3Sibling ∧
    strStartsWith c3Sibling "/home/user/Music" = true ∧
    (play c3Env c3Sibling 0 initState).ok = true ∧
    (play c3Env c3Sibling 0 initState).spawned.isSome = true := by decide

/-- Claim C3 amended: `play` rejects — before any spawn attempt, with
result `False` and the user-visible error string recorded — exactly
those paths whose resolved string does not START WITH the resolved root
string; full subtree containment is not checked, so a sibling directory
extending the root's name (see the counterexample) is accepted. -/
theorem C3_rejects_non_prefix_paths (env : Env) (path : String) (startPos : ℤ)
    (s : PlayerState) (rp : String)
    (h1 : env.resolved = some rp) (h2 : path ≠ "")
    (h3 : strStartsWith rp env.musicDirResolved = false) :
    play env path startPos s =
      ⟨false, { s with currentFile := some "Error: Path outside music directory" }, none⟩ := by
  simp [play, h1, h2, h3]

/-- Witness for the amended C3: `play("/etc/passwd")` with library root
`/home/user/Music` fails with the boundary error and spawns nothing. -/
theorem C3_rejects_witness :
    play { okEnv with resolved := some "/etc/passwd" } "/etc/passwd" 0 initState =
      ⟨false, { initState with currentFile := some "Error: Path outside music directory" },
        none⟩ :=
  C3_rejects_non_prefix_paths { okEnv with resolved := some "/etc/passwd" }
    "/etc/passwd" 0 initState "/etc/passwd" rfl (by decide) (by decide)

/-- Claim C4: while a live process is playing the very track `play` is
asked for, `play(track, 0)` returns true and changes nothing — no stop,
no spawn, state identical; and the no-op does not apply to a nonzero
offset: `play(track, n)` with `n ≠ 0` spawns a fresh decoder process. -/
theorem C4_play_idempotent_at_zero (env : Env) (path rp m : String)
    (s : PlayerState) (n : ℤ)
    (h1 : env.resolved = some rp) (h2 : path ≠ "")
    (h3 : strStartsWith rp env.musicDirResolved = true)
    (h4 : procAlive s = true) (h5 : s.currentPath = some rp)
    (h6 : env.pathExists = true) (h7 : strToLower (pathSuffix rp) ≠ ".wav")
    (h8 : env.mpg123Cmd = some m) (h9 : env.spawnOk = true) (h10 : n ≠ 0) :
    play env path 0 s = ⟨true, s, none⟩ ∧
    (play env path n s).spawned =
      some (buildMpgCmd m s.volume n s.effectSpeed rp) ∧
    (play env path n s).st.process = some ⟨env.freshPid, true⟩ := by
  refine ⟨?_, ?_, ?_⟩
  · simp [play, h1, h2, h3, h4, h5]
  · simp [play, h1, h2, h3, h6, h7, h8, h9, h10, afterSpawn, stopAudio, stopAudioTry_eq]
  · simp [play, h1, h2, h3, h6, h7, h8, h9, h10, afterSpawn, stopAudio, stopAudioTry_eq]

/-- Witness for C4 with a live mpg123 session on the same track: replay
at offset 0 is the identity, replay at offset 5 spawns. -/
theorem C4_play_idempotent_witness :
    play okEnv "/home/user/Music/t.mp3" 0 liveMpgState = ⟨true, liveMpgState, none⟩ ∧
    (play okEnv "/home/user/Music/t.mp3" 5 liveMpgState).spawned =
      some (buildMpgCmd "mpg123" liveMpgState.volume 5 liveMpgState.effectSpeed
        "/home/user/Music/t.mp3") ∧
    (play okEnv "/home/user/Music/t.mp3" 5 liveMpgState).st.process = some ⟨1, true⟩ :=
  C4_play_idempotent_at_zero okEnv "/home/user/Music/t.mp3" "/home/user/Music/t.mp3"
    "mpg123" liveMpgState 5 rfl (by decide) (by decide) (by decide) rfl rfl
    (by decide) rfl rfl (by decide)

/-- Claim C10: for a `.wav` path the spawned command is exactly
`[aplay, path]` — whatever the requested offset, the session volume or
the effect speed — while the resulting session still records the
requested offset in `current_position`. -/
theorem C10_wav_command_ignores_parameters (env : Env) (path rp a : String)
    (s : PlayerState) (n : ℤ)
    (h1 : env.resolved = some rp) (h2 : path ≠ "")
    (h3 : strStartsWith rp env.musicDirResolved = true)
    (h4 : procAlive s = false) (h5 : env.pathExists = true)
    (h6 : strToLower (pathSuffix rp) = ".wav")
    (h7 : env.aplayCmd = some a) (h8 : env.spawnOk = true) :
    (play env path n s).spawned = some (Cmd.aplay a rp) ∧
    (play env path n s).st.currentPosition = (n : ℚ) ∧
    (play env path n s).ok = true := by
  refine ⟨?_, ?_, ?_⟩ <;>
    simp [play, h1, h2, h3, h4, h5, h6, h7, h8, afterSpawn, stopAudio, stopAudioTry_eq]

/-- Witness for C10: playing a `.wav` at requested offset 37 with volume
40 and speed 3/2 still spawns plain `[aplay, path]` and records 37. -/
theorem C10_wav_witness :
    (play wavEnv "/home/user/Music/t.wav" 37
        { initState with volume := 40, effectSpeed := 3 / 2 }).spawned =
      some (Cmd.aplay "aplay" "/home/user/Music/t.wav") ∧
    (play wavEnv "/home/user/Music/t.wav" 37
        { initState with volume := 40, effectSpeed := 3 / 2 }).st.currentPosition =
      ((37 : ℤ) : ℚ) ∧
    (play wavEnv "/home/user/Music/t.wav" 37
        { initState with volume := 40, effectSpeed := 3 / 2 }).ok = true :=
  C10_wav_command_ignores_parameters wavEnv "/home/user/Music/t.wav"
    "/home/user/Music/t.wav" "aplay" { initState with volume := 40, effectSpeed := 3 / 2 }
    37 rfl (by decide) (by decide) (by decide) rfl (by decide) rfl rfl

/-- Counterexample to claim C5 as stated: with a track 30 seconds into
playback (stored offset 0, started at time 100, volume adjusted at time
130), `adjust_volume` relaunches the decoder from
`int(current_position) = 0` — the old stored offset, not the elapsed 30. -/
theorem C5_adjust_volume_uses_stored_offset :
    computedElapsed 130 playedState = some 30 ∧
    (adjustVolume { okEnv with now := 130 } 5 playedState).1.currentPosition = 0 ∧
    (adjustVolume { okEnv with now := 130 } 5 playedState).2.isSome = true ∧
    (0 : ℚ) ≠ 30 := by
  have h1 : playedState = playedLit := by decide
  have e1 : computedElapsed 130 playedLit = some (130 - 100 + 0) := rfl
  refine ⟨by rw [h1, e1]; norm_num, ?_, ?_, by norm_num⟩
  · rw [h1]; decide
  · rw [h1]; decide

/-- Claim C5 amended: `adjust_speed` relaunches the decoder (via
`_restart_playback`) with a start offset equal to the truncation of the
current elapsed position `stored + (now - start_time)` — within one
second below it, in particular neither 0 nor the stored offset whenever
they differ from the elapsed position by at least one — while
`adjust_volume` relaunches at the truncation of the STORED
`current_position`, not at the elapsed position. -/
theorem C5_speed_elapsed_volume_stored (env : Env) (p m : String) (s : PlayerState)
    (t0 : ℚ) (d : ℚ) (dv : ℤ) (pid : ℕ)
    (h1 : s.process = some ⟨pid, true⟩)
    (h2 : s.currentPlayer = some "mpg123")
    (h3 : s.currentPath = some p)
    (h4 : s.playbackStartTime = some t0) (h5 : t0 ≠ 0)
    (h6 : env.resolved = some p) (h7 : p ≠ "")
    (h8 : strStartsWith p env.musicDirResolved = true)
    (h9 : env.pathExists = true)
    (h10 : strToLower (pathSuffix p) ≠ ".wav")
    (h11 : env.mpg123Cmd = some m) (h12 : env.spawnOk = true)
    (h13 : env.killOk = true)
    (h14 : 1 ≤ s.currentPosition + (env.now - t0)) :
    (adjustSpeed env d s).1.currentPosition =
      ((pyInt (s.currentPosition + (env.now - t0)) : ℤ) : ℚ) ∧
    (adjustSpeed env d s).2.isSome = true ∧
    s.currentPosition + (env.now - t0) - 1 <
      ((pyInt (s.currentPosition + (env.now - t0)) : ℤ) : ℚ) ∧
    ((pyInt (s.currentPosition + (env.now - t0)) : ℤ) : ℚ) ≤
      s.currentPosition + (env.now - t0) ∧
    (adjustVolume env dv s).1.currentPosition = ((pyInt s.currentPosition : ℤ) : ℚ) ∧
    (adjustVolume env dv s).2.isSome = true := by
  have hpos : (0 : ℚ) ≤ s.currentPosition + (env.now - t0) := le_trans zero_le_one h14
  have hne : pyInt (s.currentPosition + (env.now - t0)) ≠ 0 := by
    have := one_le_pyInt h14; omega
  refine ⟨?_, ?_, sub_one_lt_pyInt hpos, pyInt_le hpos, ?_, ?_⟩
  · simp [adjustSpeed, restartPlayback, procAlive, h1, h3, h4, h5, play, h6, h7, h8,
      h9, h10, h11, h12, hne, afterSpawn, stopAudio, stopAudioTry_eq]
  · simp [adjustSpeed, restartPlayback, procAlive, h1, h3, h4, h5, play, h6, h7, h8,
      h9, h10, h11, h12, hne, afterSpawn, stopAudio, stopAudioTry_eq]
  · simp [adjustVolume, procAlive, h1, h2, h13, killProc, h3, play, h6, h7, h8,
      h9, h10, h11, h12, afterSpawn, stopAudio, stopAudioTry_eq]
  · simp [adjustVolume, procAlive, h1, h2, h13, killProc, h3, play, h6, h7, h8,
      h9, h10, h11, h12, afterSpawn, stopAudio, stopAudioTry_eq]

/-- Witness for the amended C5 on a live mpg123 session started at time
100 with stored offset 0, adjusted at time 130. -/
theorem C5_speed_volume_witness :
    (adjustSpeed { okEnv with now := 130 } (1 / 10) liveMpgState).1.currentPosition =
      ((pyInt (liveMpgState.currentPosition + (130 - 100)) : ℤ) : ℚ) ∧
    (adjustSpeed { okEnv with now := 130 } (1 / 10) liveMpgState).2.isSome = true ∧
    liveMpgState.currentPosition + (130 - 100) - 1 <
      ((pyInt (liveMpgState.currentPosition + (130 - 100)) : ℤ) : ℚ) ∧
    ((pyInt (liveMpgState.currentPosition + (130 - 100)) : ℤ) : ℚ) ≤
      liveMpgState.currentPosition + (130 - 100) ∧
    (adjustVolume { okEnv with now := 130 } 5 liveMpgState).1.currentPosition =
      ((pyInt liveMpgState.currentPosition : ℤ) : ℚ) ∧
    (adjustVolume { okEnv with now := 130 } 5 liveMpgState).2.isSome = true :=
  C5_speed_elapsed_volume_stored { okEnv with now := 130 } "/home/user/Music/t.mp3"
    "mpg123" liveMpgState 100 (1 / 10) 5 7 rfl rfl rfl rfl (by norm_num) rfl
    (by decide) (by decide) rfl (by decide) rfl rfl rfl
    (by norm_num [liveMpgState, okEnv])

/-- One trim-loop pass is `List.tail` (deleting from an empty dict is
skipped, and the tail of an empty list is itself empty). -/
theorem cacheTrimStep_eq_tail {α β : Type} (d : List (α × β)) :
    cacheTrimStep d = d.tail := by
  cases d <;> simp [cacheTrimStep]

/-- Iterating the trim-loop pass drops that many oldest entries. -/
theorem cacheTrimStep_iterate {α β : Type} (n : ℕ) (d : List (α × β)) :
    cacheTrimStep^[n] d = d.drop n := by
  induction n generalizing d with
  | zero => simp
  | succ n ih =>
    rw [Function.iterate_succ_apply, cacheTrimStep_eq_tail, ih]
    cases d <;> simp

/-- The batch trim drops exactly the `CACHE_TRIM_SIZE` oldest entries. -/
theorem cacheTrim_eq_drop {α β : Type} (d : List (α × β)) :
    cacheTrim d = d.drop CACHE_TRIM_SIZE :=
  cacheTrimStep_iterate _ _

/-- A dict assignment grows the dict by at most one entry. -/
theorem dictInsert_length_le {α β : Type} [BEq α] (d : List (α × β)) (k : α) (v : β) :
    (dictInsert d k v).length ≤ d.length + 1 := by
  unfold dictInsert; split <;> simp

/-- The scan-site insertion preserves the `MAX_TRACK_DURATIONS` bound. -/
theorem scanCacheInsert_length_le {α β : Type} [BEq α] (d : List (α × β)) (k : α)
    (v : β) (h : d.length ≤ MAX_TRACK_DURATIONS) :
    (scanCacheInsert d k v).length ≤ MAX_TRACK_DURATIONS := by
  unfold scanCacheInsert
  split
  · calc (dictInsert (cacheTrim d) k v).length
        ≤ (cacheTrim d).length + 1 := dictInsert_length_le _ _ _
      _ = d.length - CACHE_TRIM_SIZE + 1 := by rw [cacheTrim_eq_drop]; simp
      _ ≤ MAX_TRACK_DURATIONS := by
          simp only [MAX_TRACK_DURATIONS, CACHE_TRIM_SIZE] at *
          omega
  · calc (dictInsert d k v).length
        ≤ d.length + 1 := dictInsert_length_le _ _ _
      _ ≤ MAX_TRACK_DURATIONS := by
          simp only [MAX_TRACK_DURATIONS] at *
          omega

/-- Any sequence of scan-site insertions preserves the bound. -/
theorem scanFold_length_le {α β : Type} [BEq α] (entries : List (α × β))
    (d : List (α × β)) (h : d.length ≤ MAX_TRACK_DURATIONS) :
    (entries.foldl (fun c e => scanCacheInsert c e.1 e.2) d).length ≤
      MAX_TRACK_DURATIONS := by
  induction entries generalizing d with
  | nil => simpa using h
  | cons e es ih => exact ih _ (scanCacheInsert_length_le _ _ _ h)

/-- An absent key matches no entry of the dict. -/
theorem dictGet?_eq_none {α β : Type} [BEq α] {d : List (α × β)} {k : α}
    (h : dictGet? d k = none) : ∀ e ∈ d, (e.1 == k) = false := by
  intro e he
  unfold dictGet? at h
  rw [Option.map_eq_none'] at h
  have := List.find?_eq_none.mp h e he
  simpa using this

/-- Assigning an absent key appends it at the (newest) end. -/
theorem dictInsert_of_fresh {α β : Type} [BEq α] {d : List (α × β)} {k : α} (v : β)
    (h : dictGet? d k = none) : dictInsert d k v = d ++ [(k, v)] := by
  unfold dictInsert
  rw [if_neg]
  intro hc
  obtain ⟨e, he, hek⟩ := List.any_eq_true.mp hc
  rw [dictGet?_eq_none h e he] at hek
  exact Bool.false_ne_true hek

/-- A key absent from a dict is absent from any suffix of it. -/
theorem dictGet?_drop_none {α β : Type} [BEq α] {d : List (α × β)} {k : α} (n : ℕ)
    (h : dictGet? d k = none) : dictGet? (d.drop n) k = none := by
  unfold dictGet? at *
  rw [Option.map_eq_none'] at *
  rw [List.find?_eq_none] at *
  exact fun x hx => h x (List.drop_subset n d hx)

/-- On a cache at or above capacity, the scan-site insertion of a fresh
key evicts exactly the `CACHE_TRIM_SIZE` oldest entries in one pass and
appends the new entry. -/
theorem scanCacheInsert_full {α β : Type} [BEq α] (d : List (α × β)) (k : α) (v : β)
    (hfull : MAX_TRACK_DURATIONS ≤ d.length) (hfresh : dictGet? d k = none) :
    scanCacheInsert d k v = d.drop CACHE_TRIM_SIZE ++ [(k, v)] := by
  unfold scanCacheInsert
  rw [if_pos hfull, cacheTrim_eq_drop,
    dictInsert_of_fresh v (dictGet?_drop_none CACHE_TRIM_SIZE hfresh)]

/-- The play-site insertion of a fresh key with a nonzero duration just
appends — it never evicts. -/
theorem playCacheInsert_fresh {α : Type} [BEq α] {d : List (α × ℚ)} {k : α} {v : ℚ}
    (hfresh : dictGet? d k = none) (hv : v ≠ 0) :
    playCacheInsert d k (some v) = d ++ [(k, v)] := by
  unfold playCacheInsert
  rw [hfresh]
  simp [hv, dictInsert_of_fresh v hfresh]

/-- `natEntries n` has `n` entries. -/
theorem natEntries_length (n : ℕ) : (natEntries n).length = n := by simp [natEntries]

/-- Keys at or beyond `n` are absent from `natEntries n`. -/
theorem dictGet?_natEntries (n m : ℕ) (h : n ≤ m) :
    dictGet? (natEntries n) m = none := by
  unfold dictGet? natEntries
  rw [Option.map_eq_none', List.find?_eq_none]
  rintro x hx
  simp only [List.mem_map, List.mem_range] at hx
  obtain ⟨j, hj, rfl⟩ := hx
  simp only [beq_iff_eq]
  omega

/-- Folding `n` distinct fresh keys through the play-site insertion
yields all `n` entries. -/
theorem playFold_eq (n : ℕ) :
    (List.range n).foldl (fun d i => playCacheInsert d i (some 1)) [] = natEntries n := by
  induction n with
  | zero => simp [natEntries]
  | succ n ih =>
    rw [List.range_succ, List.foldl_append, ih]
    simp only [List.foldl_cons, List.foldl_nil]
    rw [playCacheInsert_fresh (dictGet?_natEntries n n le_rfl) one_ne_zero]
    simp [natEntries, List.range_succ]

/-- Claim C9 amended: the eviction bound holds at the `scan_all_durations`
insertion sites — any sequence of scan-site insertions keeps the cache at
or below `MAX_TRACK_DURATIONS`, and on a full cache one insertion evicts
exactly the `CACHE_TRIM_SIZE` oldest-inserted entries in one pass — but
not at the insertion site inside `play`, which never evicts (see the
counterexample). -/
theorem C9_scan_site_bound (entries : List (ℕ × ℚ)) (d1 d2 : List (ℕ × ℚ))
    (k : ℕ) (v : ℚ)
    (h1 : d1.length ≤ MAX_TRACK_DURATIONS)
    (h2 : MAX_TRACK_DURATIONS ≤ d2.length)
    (h3 : dictGet? d2 k = none) :
    (entries.foldl (fun c e => scanCacheInsert c e.1 e.2) d1).length ≤
      MAX_TRACK_DURATIONS ∧
    scanCacheInsert d2 k v = d2.drop CACHE_TRIM_SIZE ++ [(k, v)] :=
  ⟨scanFold_length_le entries d1 h1, scanCacheInsert_full d2 k v h2 h3⟩

/-- Witness for the amended C9: inserting max+trim+1 distinct entries
through the scan site from an empty cache stays bounded, and one scan
insertion into a cache of exactly `MAX_TRACK_DURATIONS` entries drops the
1000 oldest and appends the new entry. -/
theorem C9_scan_site_witness :
    ((natEntries (MAX_TRACK_DURATIONS + CACHE_TRIM_SIZE + 1)).foldl
        (fun c e => scanCacheInsert c e.1 e.2) []).length ≤ MAX_TRACK_DURATIONS ∧
    scanCacheInsert (natEntries MAX_TRACK_DURATIONS) MAX_TRACK_DURATIONS 1 =
      (natEntries MAX_TRACK_DURATIONS).drop CACHE_TRIM_SIZE ++
        [(MAX_TRACK_DURATIONS, 1)] :=
  C9_scan_site_bound (natEntries (MAX_TRACK_DURATIONS + CACHE_TRIM_SIZE + 1)) []
    (natEntries MAX_TRACK_DURATIONS) MAX_TRACK_DURATIONS 1 (by simp)
    (by simp [natEntries_length]) (dictGet?_natEntries _ _ le_rfl)

/-- Counterexample to "this bound holds at every insertion site": pushing
`MAX_TRACK_DURATIONS + CACHE_TRIM_SIZE + 1` distinct entries through the
insertion site inside `play` grows the cache to 6001 entries, strictly
above the 5000-entry bound — that site never evicts. -/
theorem C9_play_site_unbounded :
    ((List.range (MAX_TRACK_DURATIONS + CACHE_TRIM_SIZE + 1)).foldl
        (fun d i => playCacheInsert d i (some 1)) []).length =
      MAX_TRACK_DURATIONS + CACHE_TRIM_SIZE + 1 ∧
    MAX_TRACK_DURATIONS < MAX_TRACK_DURATIONS + CACHE_TRIM_SIZE + 1 := by
  refine ⟨by rw [playFold_eq, natEntries_length], ?_⟩
  norm_num [MAX_TRACK_DURATIONS, CACHE_TRIM_SIZE]

end Danktunes
